import Mathlib

/-!
Shallow embedding of the websocket chat-relay backend (`api/main.py` and
`api/models.py`) and proofs about its behaviour.

The backend keeps one global ordered message store, a registry of open
websocket connections, a prompt builder (`convert_messages_to_openai_format`),
a completion wrapper (`generate_response`) and a per-connection handler
(`websocket_endpoint`).  The embedding below translates these pieces into
plain Lean functions: the external completion service is an oracle value
(`CompletionOutcome`), the event loop of one connection becomes a fold over a
script of incoming items, and exceptions that escape the handler are modelled
as an explicit termination status.
-/

namespace Relay

/-- Embeds `models.Message` (pydantic `BaseModel`): `text : str`,
`sender : str`, `timestamp : int = None`.  Under pydantic v1 semantics the
default `None` makes the field optional, so the timestamp is an `Option Int`. -/
structure Message where
  text : String
  sender : String
  timestamp : Option Int
deriving DecidableEq

/-- JSON values, the universe of parsed inbound-frame fields.  The
`chartOption` field of a frame is an arbitrary JSON value passed through
unexamined; numbers are modelled as integers. -/
inductive JsonValue where
  | null
  | bool (b : Bool)
  | num (n : Int)
  | str (s : String)
  | arr (items : List JsonValue)
  | obj (fields : List (String × JsonValue))

/-- Python truthiness of a JSON value, as tested by `if chart_option:` and
`if current_chart_option:` in `main.py`: `None`, `False`, `0`, the empty
string, the empty list and the empty dict are falsy. -/
def JsonValue.isTruthy : JsonValue → Bool
  | .null => false
  | .bool b => b
  | .num n => n != 0
  | .str s => !s.isEmpty
  | .arr items => !items.isEmpty
  | .obj fields => !fields.isEmpty

/-- Python truthiness of an optional JSON value (absent = `None` = falsy). -/
def pyTruthy : Option JsonValue → Bool
  | none => false
  | some v => v.isTruthy

/-- Hex digit used by the `ensure_ascii` escapes of `json.dumps` (lowercase). -/
def hexDigitChar (n : Nat) : Char :=
  if n < 10 then Char.ofNat (48 + n) else Char.ofNat (87 + n)

/-- Four lowercase hex digits, as in a `\uXXXX` escape. -/
def hex4 (n : Nat) : String :=
  String.mk [hexDigitChar (n / 4096 % 16), hexDigitChar (n / 256 % 16),
    hexDigitChar (n / 16 % 16), hexDigitChar (n % 16)]

/-- Escapes one character the way `json.dumps` (default `ensure_ascii=True`)
does: the two-character escapes for quote, backslash and control characters
with short forms, and `\uXXXX` (with surrogate pairs above the BMP) for every
character outside the printable ASCII range `0x20`–`0x7e`. -/
def escapeJsonChar (c : Char) : String :=
  if c = '"' then "\\\""
  else if c = '\\' then "\\\\"
  else if c = '\n' then "\\n"
  else if c = '\r' then "\\r"
  else if c = '\t' then "\\t"
  else if c.toNat = 8 then "\\b"
  else if c.toNat = 12 then "\\f"
  else if c.toNat < 32 ∨ c.toNat > 126 then
    if c.toNat < 65536 then "\\u" ++ hex4 c.toNat
    else
      "\\u" ++ hex4 (55296 + (c.toNat - 65536) / 1024) ++
        "\\u" ++ hex4 (56320 + (c.toNat - 65536) % 1024)
  else String.singleton c

/-- A JSON string literal as produced by `json.dumps`. -/
def encodeJsonString (s : String) : String :=
  "\"" ++ String.join (s.data.map escapeJsonChar) ++ "\""

/-- A run of `n` spaces (the indentation prefixes of `json.dumps(x, indent=2)`). -/
def mkSpaces (n : Nat) : String :=
  String.mk (List.replicate n ' ')

/-- Embeds `json.dumps(value, indent=2)` as called by the prompt builder
(`chart_json = json.dumps(current_chart_option, indent=2)`): items of
non-empty containers go one per line indented by two more spaces than the
opening bracket, keys are separated from values by `": "`, items by `",\n"`,
and empty containers print as `[]` and `\x7b\x7d` with no newline.  `ind` is the
indentation width of the enclosing line; the top-level call uses `ind = 0`. -/
def JsonValue.dumps (v : JsonValue) (ind : Nat) : String :=
  match v with
  | .null => "null"
  | .bool b => if b then "true" else "false"
  | .num n => toString n
  | .str s => encodeJsonString s
  | .arr items =>
    if items.isEmpty then "[]"
    else
      "[\n" ++
        String.intercalate ",\n"
          (items.attach.map fun x => mkSpaces (ind + 2) ++ JsonValue.dumps x.1 (ind + 2)) ++
        "\n" ++ mkSpaces ind ++ "]"
  | .obj fields =>
    if fields.isEmpty then "\x7b\x7d"
    else
      "\x7b\n" ++
        String.intercalate ",\n"
          (fields.attach.map fun f =>
            mkSpaces (ind + 2) ++ encodeJsonString f.1.1 ++ ": " ++
              JsonValue.dumps f.1.2 (ind + 2)) ++
        "\n" ++ mkSpaces ind ++ "\x7d"
termination_by sizeOf v
decreasing_by
  · have h := List.sizeOf_lt_of_mem x.2
    simp only [JsonValue.arr.sizeOf_spec]
    omega
  · have h := List.sizeOf_lt_of_mem f.2
    have h2 : sizeOf f.1.2 < sizeOf f.1 := by
      obtain ⟨a, b⟩ := f.1
      simp only [Prod.mk.sizeOf_spec]
      omega
    simp only [JsonValue.obj.sizeOf_spec]
    omega

/-- The module-level constant `COMPANIES_DATA_DESCRIPTION` of `main.py`
(a triple-quoted string; it starts and ends with a newline). -/
def COMPANIES_DATA_DESCRIPTION : String :=
  "\nYou have access to a dataset of 100+ SaaS companies with the following fields:\n- companyName: Company name (e.g. \"Microsoft\", \"Salesforce\")\n- foundedYear: Year founded (e.g. 1975, 1999)\n- HQ: Headquarters location (e.g. \"Redmond, WA, USA\")\n- Industry: Industry category (e.g. \"Enterprise Software\", \"CRM\", \"Creative Software\", \"Database & Enterprise\", \"Financial Software\", \"IT Service Management\", \"HR & Finance\", \"Video Communications\", \"E-commerce\", etc.)\n- totalFunding: Total funding raised (e.g. \"$1B\", \"$65.4M\")\n- ARR: Annual Recurring Revenue (e.g. \"$270B\", \"$37.9B\")\n- Valuation: Company valuation (e.g. \"$3T\", \"$227.8B\")\n- Employees: Number of employees (e.g. \"221,000\", \"75,000\")\n- topInvestors: Major investors (e.g. \"Bill Gates, Paul Allen\")\n- Product: Main products (e.g. \"Azure, Office 365, Teams\")\n- g2Rating: G2 rating out of 5 (e.g. 4.4, 4.3)\n\nYou can create different visualizations using this data including:\n- Bar charts, line charts, area charts for numerical data\n- Pie charts for categorical breakdowns (e.g. by Industry, HQ location)\n- Scatter plots for correlations\n- Any other ECharts-supported visualization types\n"

/-- The tail of `system_content` in the visualization branch of
`convert_messages_to_openai_format`: the long single-quoted literal
concatenated after `COMPANIES_DATA_DESCRIPTION`. -/
def VIZ_SYSTEM_TAIL : String :=
  "\n\nWhen users request changes to existing charts OR ask for new charts, provide ONLY the complete JSON configuration with no additional text or explanations.\n\nFor CHARTS: Your response should be a valid JSON object that can be directly used as an ECharts option.\n\nFor TABLES: When users ask for tables or tabular data, return a JSON object with type: \"table\" at the top level, like this:\n\x7b\n  \"type\": \"table\",\n  \"columns\": [\"__companyName__\", \"__Industry__\", \"__ARR__\"],\n  \"title\": \"Company Data Table\"\n\x7d\n\nIMPORTANT: For data fields, DO NOT provide actual data values. Instead, provide field names that the frontend can use to extract data from the companies dataset. Use this format:\n- For xAxis data: use \"__FIELD_NAME__\" (e.g. \"__companyName__\", \"__Industry__\")\n- For series data: use \"__FIELD_NAME__\" for single field, or [\"__FIELD_1__\", \"__FIELD_2__\"] for multiple fields\n- For pie chart data: use \"__FIELD_NAME__\" for the field to aggregate by (e.g. \"__Industry__\")\n- For table columns: use array of \"__FIELD_NAME__\" values\n\nExamples:\n- Bar chart by company: xAxis data: \"__companyName__\", series data: \"__ARR__\"\n- Pie chart by industry: series data should have value: \"__Industry__\"\n- Scatter plot: series data: [\x7b\"name\": \"Companies\", \"data\": [\"__ARR__\", \"__Employees__\"]\x7d] (array of field names for x,y coordinates)\n- Multi-series chart: series: [\x7b\"name\": \"ARR\", \"data\": \"__ARR__\"\x7d, \x7b\"name\": \"Employees\", \"data\": \"__Employees__\"\x7d]\n\nIMPORTANT: For the foundedYear field, include a min of 1970 and a max of 2030\n\nExample axis configuration:\n\"yAxis\": \x7b\n  \"type\": \"value\",\n  \"name\": \"Founded Year\",\n  \"min\": 1970,\n  \"max\": 2030\n\x7d\n\nThe frontend will process these field names and populate with actual data from the companies dataset. "

/-- The full `system_content` of the visualization branch. -/
def VIZ_SYSTEM_CONTENT : String :=
  "You are an ECharts visualization assistant. You help users create and modify data visualizations.\n\n"
    ++ COMPANIES_DATA_DESCRIPTION ++ VIZ_SYSTEM_TAIL

/-- The system segment content of the plain-chat branch. -/
def CHAT_SYSTEM_CONTENT : String :=
  "You are a helpful assistant for chart visualization. Help users modify their ECharts configurations."

/-- The part of `user_content` before `chart_json` when a truthy chart option
is passed (the "update an existing chart" framing). -/
def UPDATE_USER_PRE : String :=
  "Here is an echarts option object: <option>"

/-- The part of `user_content` between `chart_json` and `user_request` in the
"update an existing chart" framing. -/
def UPDATE_USER_MID : String :=
  "</option>\n\nA user who wants to update it has made the following request: <request>"

/-- The part of `user_content` after `user_request` in the "update an existing
chart" framing. -/
def UPDATE_USER_POST : String :=
  "</request>\n\nFollowing this request, provide a modified JSON object. ****ONLY PROVIDE A JSON OBJECT, NOTHING ELSE.****"

/-- The part of `user_content` before `user_request` in the "new chart"
framing (no truthy chart option). -/
def NEW_USER_PRE : String :=
  "A user has made the following request for a new visualization: <request>"

/-- The part of `user_content` after `user_request` in the "new chart" framing. -/
def NEW_USER_POST : String :=
  "</request>\n\nUsing the company dataset described in the system message, create an appropriate ECharts configuration. Provide the complete JSON object. ONLY PROVIDE A JSON OBJECT, NOTHING ELSE."

/-- One role-tagged prompt segment (`\x7b"role": ..., "content": ...\x7d` dict of
the OpenAI chat format). -/
structure PromptSegment where
  role : String
  content : String
deriving DecidableEq

/-- Embeds `convert_messages_to_openai_format(messages, current_chart_option,
user_request)`.  The Python branches on the truthiness of `user_request` (a
string: truthy iff non-empty) and of `current_chart_option`; here the empty
check comes first, so the source's `if user_request:` branch is the `else`. -/
def convert_messages_to_openai_format (messages : List Message)
    (current_chart_option : Option JsonValue) (user_request : String) :
    List PromptSegment :=
  if user_request = "" then
    { role := "system", content := CHAT_SYSTEM_CONTENT } ::
      messages.map (fun message =>
        { role := if message.sender = "bot" then "assistant" else "user",
          content := message.text })
  else
    let user_content :=
      match current_chart_option with
      | some c =>
        if c.isTruthy then
          UPDATE_USER_PRE ++ JsonValue.dumps c 0 ++ UPDATE_USER_MID ++
            user_request ++ UPDATE_USER_POST
        else NEW_USER_PRE ++ user_request ++ NEW_USER_POST
      | none => NEW_USER_PRE ++ user_request ++ NEW_USER_POST
    [{ role := "system", content := VIZ_SYSTEM_CONTENT },
     { role := "user", content := user_content }]

/-- Whether the character list `s` starts with the character list `p`. -/
def charsStartWith : List Char → List Char → Bool
  | [], _ => true
  | _ :: _, [] => false
  | p :: ps, c :: cs => p == c && charsStartWith ps cs

/-- Whether the character list contains `pat` as a contiguous run. -/
def charsContain (pat : List Char) : List Char → Bool
  | [] => charsStartWith pat []
  | c :: cs => charsStartWith pat (c :: cs) || charsContain pat cs

/-- Substring test with the semantics of Python's `pat in s`. -/
def containsSubstr (s pat : String) : Bool :=
  charsContain pat.data s.data

/-- Oracle for one call to the external completion service
(`openai_client.chat.completions.create`): either the API returns a first
choice whose message content is `content`, or the returned object has no
usable content (so `response.choices[0].message.content.strip()` raises), or
the call itself raises (network or API error). -/
inductive CompletionOutcome where
  | success (content : String)
  | badResponse
  | apiError
deriving DecidableEq

/-- The fixed apology returned by `generate_response` when anything in the
`try` block raises. -/
def APOLOGY : String :=
  "I'm sorry, I encountered an error while processing your message."

/-- Embeds `generate_response(conversation_history, chart_option,
user_request)` with the completion call replaced by the oracle `o`.  The
function builds the prompt with `convert_messages_to_openai_format`, issues
the call, and returns the stripped content of the first choice; every failure
inside the `try` block is caught and replaced by the apology string. -/
def generate_response (conversation_history : List Message)
    (chart_option : Option JsonValue) (user_request : String)
    (o : CompletionOutcome) : String :=
  let openai_messages :=
    convert_messages_to_openai_format conversation_history chart_option user_request
  match openai_messages, o with
  | _, .success content => content.trim
  | _, .badResponse => APOLOGY
  | _, .apiError => APOLOGY

/-- The reply text produced for one non-bot message, following the dispatch in
`websocket_endpoint`: `generate_response(messages, chart_option, message.text)`
when `chart_option` is truthy, else `generate_response(messages)` (defaults:
no chart option, empty request).  `store1` is the global list `messages` after
the inbound message was appended. -/
def botReplyText (store1 : List Message) (copt : Option JsonValue)
    (text : String) (o : CompletionOutcome) : String :=
  if pyTruthy copt then generate_response store1 copt text o
  else generate_response store1 none "" o

/-- The prompt segments handed to the completion client for one non-bot
message (same dispatch as `botReplyText`). -/
def promptsUsed (store1 : List Message) (copt : Option JsonValue)
    (text : String) : List PromptSegment :=
  if pyTruthy copt then convert_messages_to_openai_format store1 copt text
  else convert_messages_to_openai_format store1 none ""

/-- An outbound frame, as a structured value standing for the `json.dumps`
payloads of `main.py`: either `\x7btype: "message", sender, text, timestamp\x7d` or
`\x7btype: "status", status\x7d`. -/
inductive Event where
  | message (sender text : String) (timestamp : Option Int)
  | status (s : Option String)
deriving DecidableEq

/-- Whether an event is a "message" event whose sender is `"bot"`. -/
def Event.isBotMessage : Event → Bool
  | .message sender _ _ => sender == "bot"
  | .status _ => false

/-- One inbound text frame as the handler sees it after
`json.loads(data)` and the field accesses: either the required fields parsed
(timestamp and chartOption optional), or a malformed frame (not JSON, or
missing `text`/`sender`), which makes `json.loads` or the key lookup raise. -/
inductive Frame where
  | valid (text sender : String) (timestamp : Option Int)
      (chartOption : Option JsonValue)
  | malformed

/-- An exception escaping the handler loop: `typeError` for
`message.timestamp + 1` when the timestamp is `None`, `frameError` for a
malformed inbound frame. -/
inductive HandlerError where
  | typeError
  | frameError
deriving DecidableEq

/-- The effect of one iteration of the `while True` loop of
`websocket_endpoint` on the global store: the new store, the broadcast events
in order, the prompt lists sent to the completion client, and the exception it
raised, if any (events and appends that happened before the raise are kept). -/
structure StepOut where
  store : List Message
  events : List Event
  completions : List (List PromptSegment)
  error : Option HandlerError

/-- Embeds one iteration of the receive loop of `websocket_endpoint`:
append the parsed message, broadcast it; if its sender is not `"bot"`,
broadcast "Thinking...", call the completion client on the prompt chosen by
the truthiness of `chartOption`, broadcast the status-clear event, then build
the reply with `timestamp = message.timestamp + 1` — which raises a
`TypeError` when the inbound timestamp is `None` — append and broadcast it.
The source's `if message.sender != "bot"` is rendered with the branches
swapped (`= "bot"` first). -/
def handleFrame (store : List Message) (f : Frame) (o : CompletionOutcome) :
    StepOut :=
  match f with
  | .malformed => ⟨store, [], [], some .frameError⟩
  | .valid text sender ts copt =>
    let message : Message := ⟨text, sender, ts⟩
    let store1 := store ++ [message]
    let ev1 : Event := .message sender text ts
    if sender = "bot" then ⟨store1, [ev1], [], none⟩
    else
      let prompts := promptsUsed store1 copt text
      let resp := botReplyText store1 copt text o
      match ts with
      | some t =>
        ⟨store1 ++ [⟨resp, "bot", some (t + 1)⟩],
         [ev1, .status (some "Thinking..."), .status none,
          .message "bot" resp (some (t + 1))],
         [prompts], none⟩
      | none =>
        ⟨store1, [ev1, .status (some "Thinking..."), .status none],
         [prompts], some .typeError⟩

/-- Identifier of one websocket connection; the connection registry
`manager.active_connections` is a `List ConnId`. -/
abbrev ConnId := Nat

/-- A send performed by the handler: `send_personal_message` to one connection
or `broadcast` to every registered connection. -/
inductive Sent where
  | personal (conn : ConnId) (e : Event)
  | broadcast (e : Event)
deriving DecidableEq

/-- Whether a send was a broadcast. -/
def Sent.isBroadcast : Sent → Bool
  | .broadcast _ => true
  | .personal _ _ => false

/-- One item a connection handler waits for: an inbound frame (paired with
the oracle outcome of the completion call it may trigger) or the transport
disconnect signal (`WebSocketDisconnect`). -/
inductive Incoming where
  | frame (f : Frame) (o : CompletionOutcome)
  | disconnect

/-- Whether an incoming item is a well-formed non-bot user frame carrying a
timestamp. -/
def Incoming.isNonBotUser : Incoming → Bool
  | .frame (.valid _ sender (some _) _) _ => sender != "bot"
  | _ => false

/-- How one handler run ended: the script ran out while the connection was
still open, the client disconnected (caught, clean unregistration), or an
uncaught exception escaped the handler. -/
inductive TermStatus where
  | stillOpen
  | disconnected
  | crashed (e : HandlerError)
deriving DecidableEq

/-- The observable result of running one connection handler: the final
registry, the final store, every send it performed in order, and how it
ended. -/
structure EndpointOut where
  registry : List ConnId
  store : List Message
  sent : List Sent
  term : TermStatus

/-- The `while True` receive loop of `websocket_endpoint`, folded over a
script of incoming items.  `WebSocketDisconnect` is the only exception caught
(`manager.disconnect` removes the connection); any `HandlerError` escapes the
function and leaves the registry untouched. -/
def wsLoop (c : ConnId) (reg : List ConnId) (store : List Message) :
    List Incoming → EndpointOut
  | [] => ⟨reg, store, [], .stillOpen⟩
  | .disconnect :: _ => ⟨reg.erase c, store, [], .disconnected⟩
  | .frame f o :: rest =>
    match (handleFrame store f o).error with
    | some e =>
      ⟨reg, (handleFrame store f o).store,
       (handleFrame store f o).events.map Sent.broadcast, .crashed e⟩
    | none =>
      ⟨(wsLoop c reg (handleFrame store f o).store rest).registry,
       (wsLoop c reg (handleFrame store f o).store rest).store,
       (handleFrame store f o).events.map Sent.broadcast ++
         (wsLoop c reg (handleFrame store f o).store rest).sent,
       (wsLoop c reg (handleFrame store f o).store rest).term⟩

/-- Embeds `websocket_endpoint(websocket)` for one connection `c`:
`manager.connect` appends `c` to the registry, the current store is replayed
to `c` alone as individual "message" events in order, then the receive loop
runs over the script. -/
def websocket_endpoint (reg : List ConnId) (store : List Message) (c : ConnId)
    (script : List Incoming) : EndpointOut :=
  let afterLoop := wsLoop c (reg ++ [c]) store script
  ⟨afterLoop.registry, afterLoop.store,
   store.map (fun m => Sent.personal c (Event.message m.sender m.text m.timestamp))
     ++ afterLoop.sent,
   afterLoop.term⟩

/-- Checks that a run of appended messages is an alternation of non-bot
messages each followed by one assistant reply stamped one later. -/
def alternatingUserBot : List Message → Bool
  | [] => true
  | [_] => false
  | u :: b :: rest =>
    (u.sender != "bot") && (b.sender == "bot") &&
      (b.timestamp == u.timestamp.map (fun t => t + 1)) && alternatingUserBot rest

theorem list_take_len_append {α : Type} (A B : List α) :
    (A ++ B).take A.length = A := by
  induction A with
  | nil => simp
  | cons a A ih => simp [ih]

theorem list_drop_len_append {α : Type} (A B : List α) :
    (A ++ B).drop A.length = B := by
  induction A with
  | nil => simp
  | cons a A ih => simp [ih]

theorem wsLoop_sent_all_broadcast (script : List Incoming) (c : ConnId) :
    ∀ (reg : List ConnId) (store : List Message),
    ((wsLoop c reg store script).sent).all Sent.isBroadcast = true := by
  induction script with
  | nil => intro reg store; simp [wsLoop]
  | cons i rest ih =>
    intro reg store
    cases i with
    | disconnect => simp [wsLoop]
    | frame f o =>
      cases he : (handleFrame store f o).error with
      | some e =>
        simp [wsLoop, he, List.all_map, Function.comp, Sent.isBroadcast]
      | none =>
        simp [wsLoop, he, List.all_append, List.all_map, Function.comp,
          Sent.isBroadcast, ih]

theorem handleFrame_store_extends (store : List Message) (f : Frame)
    (o : CompletionOutcome) :
    ∃ app, (handleFrame store f o).store = store ++ app := by
  cases f with
  | malformed => exact ⟨[], by simp [handleFrame]⟩
  | valid text sender ts copt =>
    by_cases h : sender = "bot"
    · exact ⟨[⟨text, sender, ts⟩], by simp [handleFrame, h]⟩
    · cases ts with
      | some t =>
        exact ⟨[⟨text, sender, some t⟩,
          ⟨botReplyText (store ++ [⟨text, sender, some t⟩]) copt text o,
            "bot", some (t + 1)⟩], by simp [handleFrame, h]⟩
      | none => exact ⟨[⟨text, sender, none⟩], by simp [handleFrame, h]⟩

theorem wsLoop_store_extends (script : List Incoming) (c : ConnId) :
    ∀ (reg : List ConnId) (store : List Message),
    ∃ app, (wsLoop c reg store script).store = store ++ app := by
  induction script with
  | nil => intro reg store; exact ⟨[], by simp [wsLoop]⟩
  | cons i rest ih =>
    intro reg store
    cases i with
    | disconnect => exact ⟨[], by simp [wsLoop]⟩
    | frame f o =>
      obtain ⟨app1, e1⟩ := handleFrame_store_extends store f o
      cases he : (handleFrame store f o).error with
      | some e => exact ⟨app1, by simp [wsLoop, he, e1]⟩
      | none =>
        obtain ⟨app2, e2⟩ := ih reg (handleFrame store f o).store
        rw [e1] at e2
        exact ⟨app1 ++ app2, by simp [wsLoop, he, e1, e2]⟩

theorem wsLoop_registry (script : List Incoming) (c : ConnId) :
    ∀ (reg : List ConnId) (store : List Message),
    ((wsLoop c reg store script).term = .stillOpen →
      (wsLoop c reg store script).registry = reg)
    ∧ ((wsLoop c reg store script).term = .disconnected →
      (wsLoop c reg store script).registry = reg.erase c)
    ∧ (∀ e, (wsLoop c reg store script).term = .crashed e →
      (wsLoop c reg store script).registry = reg) := by
  induction script with
  | nil => intro reg store; refine ⟨fun _ => rfl, fun h => ?_, fun e h => ?_⟩ <;>
      simp [wsLoop] at h
  | cons i rest ih =>
    intro reg store
    cases i with
    | disconnect =>
      refine ⟨fun h => ?_, fun _ => rfl, fun e h => ?_⟩ <;> simp [wsLoop] at h
    | frame f o =>
      cases he : (handleFrame store f o).error with
      | some e0 =>
        refine ⟨fun h => ?_, fun h => ?_, fun e h => ?_⟩ <;>
          simp [wsLoop, he] at h ⊢
      | none =>
        have ihs := ih reg (handleFrame store f o).store
        refine ⟨fun h => ?_, fun h => ?_, fun e h => ?_⟩
        · simp only [wsLoop, he] at h ⊢
          exact ihs.1 h
        · simp only [wsLoop, he] at h ⊢
          exact ihs.2.1 h
        · simp only [wsLoop, he] at h ⊢
          exact ihs.2.2 e h

theorem wsLoop_good (script : List Incoming) (c : ConnId) :
    ∀ (reg : List ConnId) (store : List Message),
    (∀ i ∈ script, Incoming.isNonBotUser i = true) →
    (wsLoop c reg store script).store.length = store.length + 2 * script.length
    ∧ alternatingUserBot ((wsLoop c reg store script).store.drop store.length)
        = true := by
  induction script with
  | nil => intro reg store _; simp [wsLoop, alternatingUserBot]
  | cons i rest ih =>
    intro reg store hgood
    have hi : i.isNonBotUser = true := hgood i (List.mem_cons_self _ _)
    have hrest : ∀ j ∈ rest, Incoming.isNonBotUser j = true :=
      fun j hj => hgood j (List.mem_cons_of_mem _ hj)
    cases i with
    | disconnect => simp [Incoming.isNonBotUser] at hi
    | frame f o =>
      cases f with
      | malformed => simp [Incoming.isNonBotUser] at hi
      | valid text sender ts copt =>
        cases ts with
        | none => simp [Incoming.isNonBotUser] at hi
        | some t =>
          have hs : sender ≠ "bot" := by
            simpa [Incoming.isNonBotUser] using hi
          have hbne : (sender != "bot") = true := by
            simpa [Incoming.isNonBotUser] using hi
          have herr :
              (handleFrame store (.valid text sender (some t) copt) o).error
                = none := by
            simp [handleFrame, hs]
          have hst :
              (handleFrame store (.valid text sender (some t) copt) o).store
                = (store ++ [⟨text, sender, some t⟩]) ++
                    [⟨botReplyText (store ++ [⟨text, sender, some t⟩]) copt text o,
                      "bot", some (t + 1)⟩] := by
            simp [handleFrame, hs]
          obtain ⟨hlen, halt⟩ :=
            ih reg ((store ++ [⟨text, sender, some t⟩]) ++
              [⟨botReplyText (store ++ [⟨text, sender, some t⟩]) copt text o,
                "bot", some (t + 1)⟩]) hrest
          obtain ⟨app, happ⟩ :=
            wsLoop_store_extends rest c reg
              ((store ++ [⟨text, sender, some t⟩]) ++
                [⟨botReplyText (store ++ [⟨text, sender, some t⟩]) copt text o,
                  "bot", some (t + 1)⟩])
          have halt2 : alternatingUserBot app = true := by
            rw [happ, list_drop_len_append] at halt
            exact halt
          constructor
          · simp only [wsLoop, herr, hst]
            rw [hlen]
            simp
            omega
          · simp only [wsLoop, herr, hst]
            rw [happ]
            have hassoc :
                ((store ++ [(⟨text, sender, some t⟩ : Message)]) ++
                    [(⟨botReplyText (store ++ [⟨text, sender, some t⟩]) copt text o,
                      "bot", some (t + 1)⟩ : Message)]) ++ app
                  = store ++
                      ((⟨text, sender, some t⟩ : Message) ::
                        (⟨botReplyText (store ++ [⟨text, sender, some t⟩]) copt text o,
                          "bot", some (t + 1)⟩ : Message) :: app) := by
              simp
            rw [hassoc, list_drop_len_append]
            simp [alternatingUserBot, hbne, halt2]

/-- C1 (counterexample): the claim says the store always holds exactly 2N
messages after N non-bot inbound messages.  A non-bot message whose timestamp
is absent refutes it: the handler appends the user message, then raises the
`TypeError` from `message.timestamp + 1` before appending any reply, leaving
the store with an odd count (here 1), which equals 2N for no N. -/
theorem claim_c1_counterexample :
    (websocket_endpoint [] [] 0
        [.frame (.valid "hi" "u" none none) (.success "ok")]).store
      = [⟨"hi", "u", none⟩]
  ∧ (websocket_endpoint [] [] 0
        [.frame (.valid "hi" "u" none none) (.success "ok")]).store.length % 2 = 1
  ∧ (websocket_endpoint [] [] 0
        [.frame (.valid "hi" "u" none none) (.success "ok")]).term
      = .crashed .typeError :=
  ⟨rfl, rfl, rfl⟩

/-- C1 (amended): for every script of inbound frames that are non-bot messages
carrying a timestamp, the handler processes all of them and the store grows by
exactly 2N messages — one user message followed by one assistant reply stamped
one later — for every choice of completion outcomes, including failing ones. -/
theorem claim_c1_store_growth (reg : List ConnId) (store : List Message)
    (c : ConnId) (script : List Incoming)
    (hgood : ∀ i ∈ script, Incoming.isNonBotUser i = true) :
    (websocket_endpoint reg store c script).store.length
        = store.length + 2 * script.length
  ∧ alternatingUserBot
        ((websocket_endpoint reg store c script).store.drop store.length)
      = true := by
  have h := wsLoop_good script c (reg ++ [c]) store hgood
  simpa [websocket_endpoint] using h

/-- C1 (witness): two non-bot messages, the first completion call failing,
leave the store with 4 = 2·2 messages alternating user/bot. -/
theorem claim_c1_witness :
    (websocket_endpoint [] [] 0
        [.frame (.valid "hi" "u" (some 0) none) .apiError,
         .frame (.valid "more" "v" (some 9) none) (.success "sup")]).store.length
      = 4
  ∧ alternatingUserBot
        (websocket_endpoint [] [] 0
          [.frame (.valid "hi" "u" (some 0) none) .apiError,
           .frame (.valid "more" "v" (some 9) none) (.success "sup")]).store
      = true := by
  have h := claim_c1_store_growth [] [] 0
    [.frame (.valid "hi" "u" (some 0) none) .apiError,
     .frame (.valid "more" "v" (some 9) none) (.success "sup")] (by decide)
  simpa using h

/-- C2 (counterexample): the claim includes messages with an absent timestamp,
but for those the handler raises the `TypeError` from `None + 1`: no assistant
reply is constructed or appended at all. -/
theorem claim_c2_counterexample :
    (handleFrame [] (.valid "hello" "alice" none none) (.success "fine")).store
      = [⟨"hello", "alice", none⟩]
  ∧ (handleFrame [] (.valid "hello" "alice" none none) (.success "fine")).error
      = some .typeError
  ∧ ((handleFrame [] (.valid "hello" "alice" none none)
        (.success "fine")).store.all (fun m => m.sender != "bot"))
      = true :=
  ⟨rfl, rfl, rfl⟩

/-- C2 (amended): for a non-bot inbound message whose timestamp is present,
the appended assistant reply has timestamp exactly one more than the
triggering message; when the timestamp is absent the handler raises a
`TypeError` instead, appending no reply. -/
theorem claim_c2_reply_timestamp (store : List Message) (text sender : String)
    (t : Int) (copt : Option JsonValue) (o : CompletionOutcome)
    (h : sender ≠ "bot") :
    (handleFrame store (.valid text sender (some t) copt) o).store
        = store ++ [⟨text, sender, some t⟩,
            ⟨botReplyText (store ++ [⟨text, sender, some t⟩]) copt text o,
              "bot", some (t + 1)⟩]
  ∧ (handleFrame store (.valid text sender none copt) o).error
      = some .typeError
  ∧ (handleFrame store (.valid text sender none copt) o).store
      = store ++ [⟨text, sender, none⟩] := by
  refine ⟨?_, ?_, ?_⟩ <;> simp [handleFrame, h]

/-- C2 (witness): a concrete non-bot message stamped 5 gets a reply stamped 6. -/
theorem claim_c2_witness :
    (handleFrame [] (.valid "hi" "u" (some 5) none) (.success "ok")).store
      = [⟨"hi", "u", some 5⟩,
         ⟨botReplyText [⟨"hi", "u", some 5⟩] none "hi" (.success "ok"),
           "bot", some 6⟩] := by
  have h := (claim_c2_reply_timestamp [] "hi" "u" 5 none (.success "ok")
    (by decide)).1
  simpa using h

/-- C3: `generate_response` returns the fixed apology string for every failure
of the completion call (the call raising, or the returned choice having no
usable content), for every history, chart option and request; and the handler
iteration that receives such a failure finishes without an exception, with the
apology appended as the reply, so the relay keeps serving later messages. -/
theorem claim_c3_error_swallowed (history store : List Message)
    (copt copt2 : Option JsonValue) (req text sender : String) (t : Int) :
    generate_response history copt req .apiError
        = "I'm sorry, I encountered an error while processing your message."
  ∧ generate_response history copt req .badResponse
        = "I'm sorry, I encountered an error while processing your message."
  ∧ (sender ≠ "bot" →
      (handleFrame store (.valid text sender (some t) copt2) .apiError).error
          = none
      ∧ (handleFrame store
            (.valid text sender (some t) copt2) .apiError).store.length
          = store.length + 2) := by
  refine ⟨rfl, rfl, fun h => ⟨by simp [handleFrame, h], by simp [handleFrame, h]⟩⟩

/-- C3 (witness): a concrete failing completion call. -/
theorem claim_c3_witness :
    (handleFrame [] (.valid "hi" "u" (some 0) none) .apiError).error = none
  ∧ (handleFrame [] (.valid "hi" "u" (some 0) none) .apiError).store.length
      = 2 := by
  have h := (claim_c3_error_swallowed [] [] none none "" "hi" "u" 0).2.2
    (by decide)
  simpa using h

set_option maxRecDepth 40000 in
/-- C4 (counterexample): the claim says a supplied chart option always yields
the serialized-JSON-plus-update framing, but the code branches on Python
truthiness: an empty object is a supplied chart option, yet produces the
new-visualization framing with no "update" in it. -/
theorem claim_c4_counterexample :
    convert_messages_to_openai_format [] (some (JsonValue.obj []))
        "add a bar chart"
      = [{ role := "system", content := VIZ_SYSTEM_CONTENT },
         { role := "user",
           content := NEW_USER_PRE ++ "add a bar chart" ++ NEW_USER_POST }]
  ∧ containsSubstr (NEW_USER_PRE ++ "add a bar chart" ++ NEW_USER_POST)
        "update"
      = false := by
  exact ⟨rfl, by decide⟩

set_option maxRecDepth 40000 in
/-- C4 (amended): with a non-empty request the prompt builder ignores the
history and returns exactly a system segment followed by a user segment; with
no chart option (or a falsy one, treated alike) the user segment is the
literal request wrapped in fixed text containing neither "update" nor
"modify"; with a truthy chart option it is the option serialized as
2-indented JSON inside fixed text containing "update". -/
theorem claim_c4_viz_prompt (history : List Message) (req : String)
    (hreq : req ≠ "") :
    convert_messages_to_openai_format history none req
        = [{ role := "system", content := VIZ_SYSTEM_CONTENT },
           { role := "user", content := NEW_USER_PRE ++ req ++ NEW_USER_POST }]
  ∧ containsSubstr NEW_USER_PRE "update" = false
  ∧ containsSubstr NEW_USER_POST "update" = false
  ∧ containsSubstr NEW_USER_PRE "modify" = false
  ∧ containsSubstr NEW_USER_POST "modify" = false
  ∧ (∀ c : JsonValue, c.isTruthy = true →
      convert_messages_to_openai_format history (some c) req
        = [{ role := "system", content := VIZ_SYSTEM_CONTENT },
           { role := "user",
             content := UPDATE_USER_PRE ++ JsonValue.dumps c 0 ++
               UPDATE_USER_MID ++ req ++ UPDATE_USER_POST }])
  ∧ containsSubstr UPDATE_USER_MID "update" = true
  ∧ (∀ (history2 : List Message) (c : Option JsonValue),
      convert_messages_to_openai_format history c req
        = convert_messages_to_openai_format history2 c req) := by
  refine ⟨?_, by decide, by decide, by decide, by decide, ?_, by decide, ?_⟩
  · simp [convert_messages_to_openai_format, hreq]
  · intro c hc
    simp [convert_messages_to_openai_format, hreq, hc]
  · intro history2 c
    simp [convert_messages_to_openai_format, hreq]

/-- C4 (witness): concrete new-chart and update-chart prompts. -/
theorem claim_c4_witness :
    convert_messages_to_openai_format [] none "draw"
        = [{ role := "system", content := VIZ_SYSTEM_CONTENT },
           { role := "user", content := NEW_USER_PRE ++ "draw" ++ NEW_USER_POST }]
  ∧ convert_messages_to_openai_format []
        (some (JsonValue.obj [("title", JsonValue.str "T")])) "draw"
      = [{ role := "system", content := VIZ_SYSTEM_CONTENT },
         { role := "user",
           content := UPDATE_USER_PRE ++
             JsonValue.dumps (JsonValue.obj [("title", JsonValue.str "T")]) 0 ++
             UPDATE_USER_MID ++ "draw" ++ UPDATE_USER_POST }] :=
  ⟨(claim_c4_viz_prompt [] "draw" (by decide)).1,
   (claim_c4_viz_prompt [] "draw" (by decide)).2.2.2.2.2.1
     (JsonValue.obj [("title", JsonValue.str "T")]) (by decide)⟩

/-- C5: with an empty visualization request the prompt builder returns the
fixed chat system segment followed by one segment per history message in
order, sender "bot" mapped to the assistant role, every other sender to the
user role, the text carried over verbatim. -/
theorem claim_c5_plain_chat (msgs : List Message) (copt : Option JsonValue) :
    convert_messages_to_openai_format msgs copt ""
        = { role := "system", content := CHAT_SYSTEM_CONTENT } ::
            msgs.map (fun m =>
              { role := if m.sender = "bot" then "assistant" else "user",
                content := m.text })
  ∧ (convert_messages_to_openai_format msgs copt "").length = msgs.length + 1 := by
  constructor
  · simp [convert_messages_to_openai_format]
  · simp [convert_messages_to_openai_format]

/-- C6: on connect, the handler first sends the new client one "message" event
per stored message, personally and in store order; everything it sends after
that replay is a broadcast, so no new broadcast event precedes the replay in
this connection's send sequence. -/
theorem claim_c6_replay_order (reg : List ConnId) (store : List Message)
    (c : ConnId) (script : List Incoming) :
    (websocket_endpoint reg store c script).sent.take store.length
        = store.map (fun m =>
            Sent.personal c (Event.message m.sender m.text m.timestamp))
  ∧ (((websocket_endpoint reg store c script).sent.drop store.length).all
        Sent.isBroadcast)
      = true := by
  constructor
  · have h := list_take_len_append
      (store.map fun m => Sent.personal c (Event.message m.sender m.text m.timestamp))
      (wsLoop c (reg ++ [c]) store script).sent
    rw [List.length_map] at h
    simpa [websocket_endpoint] using h
  · have h := list_drop_len_append
      (store.map fun m => Sent.personal c (Event.message m.sender m.text m.timestamp))
      (wsLoop c (reg ++ [c]) store script).sent
    rw [List.length_map] at h
    have h2 := wsLoop_sent_all_broadcast script c (reg ++ [c]) store
    simpa [websocket_endpoint, h] using h2

/-- C7 (counterexample): the claim says a frame that carries a chart
configuration triggers the visualization-mode prompt.  The code tests Python
truthiness instead: a frame carrying the empty-object chart option is sent to
the plain-chat prompt over the full store, which differs from the
visualization prompt the claim prescribes. -/
theorem claim_c7_counterexample :
    (handleFrame [] (.valid "make a chart" "u" (some 0)
        (some (JsonValue.obj []))) (.success "ok")).completions
      = [convert_messages_to_openai_format [⟨"make a chart", "u", some 0⟩]
          none ""]
  ∧ convert_messages_to_openai_format [⟨"make a chart", "u", some 0⟩] none ""
      ≠ convert_messages_to_openai_format [⟨"make a chart", "u", some 0⟩]
          (some (JsonValue.obj [])) "make a chart" := by
  exact ⟨rfl, by decide⟩

/-- C7 (amended): for a non-bot message the single completion call uses the
visualization-mode prompt (that chart option, message text as request) when
the frame's chart option is truthy, and the plain-chat prompt over the full
store (including the just-appended message) when it is absent or falsy. -/
theorem claim_c7_prompt_dispatch (store : List Message) (text sender : String)
    (ts : Option Int) (copt : Option JsonValue) (o : CompletionOutcome)
    (h : sender ≠ "bot") :
    (handleFrame store (.valid text sender ts copt) o).completions
      = [if pyTruthy copt
         then convert_messages_to_openai_format
            (store ++ [⟨text, sender, ts⟩]) copt text
         else convert_messages_to_openai_format
            (store ++ [⟨text, sender, ts⟩]) none ""] := by
  cases ts <;> simp [handleFrame, promptsUsed, h]

/-- C7 (witness): a frame with no chart option gets the plain-chat prompt. -/
theorem claim_c7_witness :
    (handleFrame [] (.valid "hi" "u" (some 1) none) (.success "ok")).completions
      = [if pyTruthy none
         then convert_messages_to_openai_format
            ([] ++ [⟨"hi", "u", some 1⟩]) none "hi"
         else convert_messages_to_openai_format
            ([] ++ [⟨"hi", "u", some 1⟩]) none ""] :=
  claim_c7_prompt_dispatch [] "hi" "u" (some 1) none (.success "ok") (by decide)

/-- C8 (counterexample): the claim's "completion call and reply broadcast iff
sender is not bot" fails for a non-bot message with an absent timestamp: the
completion call is issued, but the handler raises before any assistant reply
is broadcast. -/
theorem claim_c8_counterexample :
    ("alice" : String) ≠ "bot"
  ∧ (handleFrame [] (.valid "hey" "alice" none none)
        (.success "yo")).completions.length = 1
  ∧ ((handleFrame [] (.valid "hey" "alice" none none)
        (.success "yo")).events.filter Event.isBotMessage).length = 0 :=
  ⟨by decide, rfl, rfl⟩

/-- C8 (amended): every parsed inbound message is appended and broadcast
first; a message from "bot" causes nothing else (no status events, no
completion call, no further append); a non-bot message issues exactly one
completion call, and when it carries a timestamp the iteration ends by
broadcasting the assistant reply. -/
theorem claim_c8_bot_gating (store : List Message) (text sender : String)
    (ts : Option Int) (copt : Option JsonValue) (o : CompletionOutcome) :
    (handleFrame store (.valid text sender ts copt) o).store.take
        (store.length + 1)
      = store ++ [⟨text, sender, ts⟩]
  ∧ (handleFrame store (.valid text sender ts copt) o).events.head?
      = some (.message sender text ts)
  ∧ (sender = "bot" →
      (handleFrame store (.valid text sender ts copt) o).store
          = store ++ [⟨text, sender, ts⟩]
      ∧ (handleFrame store (.valid text sender ts copt) o).events
          = [.message sender text ts]
      ∧ (handleFrame store (.valid text sender ts copt) o).completions = []
      ∧ (handleFrame store (.valid text sender ts copt) o).error = none)
  ∧ (sender ≠ "bot" →
      (handleFrame store (.valid text sender ts copt) o).completions.length = 1)
  ∧ (∀ t : Int, ts = some t → sender ≠ "bot" →
      (handleFrame store (.valid text sender ts copt) o).events.getLast?
        = some (.message "bot"
            (botReplyText (store ++ [⟨text, sender, ts⟩]) copt text o)
            (some (t + 1)))) := by
  have htake1 : (store ++ [(⟨text, sender, ts⟩ : Message)]).take
      (store.length + 1) = store ++ [⟨text, sender, ts⟩] := by
    have hlen : (store ++ [(⟨text, sender, ts⟩ : Message)]).length
        = store.length + 1 := by simp
    rw [← hlen, List.take_length]
  by_cases h : sender = "bot"
  · refine ⟨?_, ?_, fun _ => ⟨?_, ?_, ?_, ?_⟩, fun hn => absurd h hn,
      fun t _ hn => absurd h hn⟩ <;> simp [handleFrame, h, htake1]
  · cases ts with
    | some t =>
      refine ⟨?_, ?_, fun hb => absurd hb h, fun _ => ?_, fun t2 ht2 _ => ?_⟩
      · have htake2 := list_take_len_append
          (store ++ [(⟨text, sender, some t⟩ : Message)])
          [(⟨botReplyText (store ++ [⟨text, sender, some t⟩]) copt text o,
            "bot", some (t + 1)⟩ : Message)]
        simp only [List.length_append, List.length_cons, List.length_nil] at htake2
        simp [handleFrame, h]
        simpa using htake2
      · simp [handleFrame, h]
      · simp [handleFrame, h]
      · injection ht2 with ht2e
        subst ht2e
        simp [handleFrame, h]
    | none =>
      refine ⟨?_, ?_, fun hb => absurd hb h, fun _ => ?_, fun t2 ht2 _ => ?_⟩
      · simp [handleFrame, h, htake1]
      · simp [handleFrame, h]
      · simp [handleFrame, h]
      · exact absurd ht2 (by simp)

/-- C8 (witness): a concrete non-bot message with a timestamp, a failing
completion call: the last broadcast is the assistant reply. -/
theorem claim_c8_witness :
    (handleFrame [] (.valid "hi" "u" (some 3) none) .apiError).events.getLast?
      = some (.message "bot"
          (botReplyText ([] ++ [⟨"hi", "u", some 3⟩]) none "hi" .apiError)
          (some (3 + 1))) :=
  (claim_c8_bot_gating [] "hi" "u" (some 3) none .apiError).2.2.2.2 3 rfl
    (by decide)

/-- C9 (counterexample): the claim says that after a malformed frame makes the
handler fail, the connection is no longer in the registry.  In the code only
`WebSocketDisconnect` triggers `manager.disconnect`; the exception from a
malformed frame escapes without unregistering, so the connection is still in
the active set. -/
theorem claim_c9_counterexample :
    (websocket_endpoint [] [] 7 [.frame .malformed .apiError]).term
      = .crashed .frameError
  ∧ (websocket_endpoint [] [] 7 [.frame .malformed .apiError]).registry = [7] :=
  ⟨rfl, rfl⟩

/-- C9 (amended): a connection is removed from the registry exactly on the
transport-disconnect path; when the handler ends with an uncaught error (for
example from a malformed frame) the registry still contains the connection. -/
theorem claim_c9_registry (reg : List ConnId) (store : List Message)
    (c : ConnId) (script : List Incoming) (hc : c ∉ reg) :
    ((websocket_endpoint reg store c script).term = .disconnected →
      (websocket_endpoint reg store c script).registry = reg
      ∧ c ∉ (websocket_endpoint reg store c script).registry)
  ∧ (∀ e, (websocket_endpoint reg store c script).term = .crashed e →
      (websocket_endpoint reg store c script).registry = reg ++ [c]
      ∧ c ∈ (websocket_endpoint reg store c script).registry) := by
  have hreg := wsLoop_registry script c (reg ++ [c]) store
  have herase : (reg ++ [c]).erase c = reg := by
    rw [List.erase_append_right _ hc]
    simp
  constructor
  · intro ht
    have ht2 : (wsLoop c (reg ++ [c]) store script).term = .disconnected := by
      simpa [websocket_endpoint] using ht
    have h3 := hreg.2.1 ht2
    rw [herase] at h3
    exact ⟨by simpa [websocket_endpoint] using h3,
      by simp [websocket_endpoint, h3, hc]⟩
  · intro e ht
    have ht2 : (wsLoop c (reg ++ [c]) store script).term = .crashed e := by
      simpa [websocket_endpoint] using ht
    have h3 := hreg.2.2 e ht2
    exact ⟨by simpa [websocket_endpoint] using h3,
      by simp [websocket_endpoint, h3]⟩

/-- C9 (witness): a clean disconnect removes the connection. -/
theorem claim_c9_witness :
    (websocket_endpoint [] [] 0 [.disconnect]).registry = []
  ∧ (0 : ConnId) ∉ (websocket_endpoint [] [] 0 [.disconnect]).registry :=
  (claim_c9_registry [] [] 0 [.disconnect] (by simp)).1 rfl

/-- C10: with an empty visualization request the prompt builder's output does
not depend on the chart option at all — plain-chat mode is a function of the
message history alone. -/
theorem claim_c10_chart_noninterference (msgs : List Message)
    (c1 c2 : Option JsonValue) :
    convert_messages_to_openai_format msgs c1 ""
      = convert_messages_to_openai_format msgs c2 "" := by
  simp [convert_messages_to_openai_format]

end Relay
